import Mathlib

/-!
Shallow embedding of the Chart-of-Becoming API core (src/main.py).

The repository's engineering core is the local-time-to-UT conversion in
`get_local_and_ut` together with the `/natal` request handler `natal`.
External collaborators (timezonefinder's `timezone_at`, pytz's rule-table
localization, the swisseph ephemeris) are modelled as abstract parameters
in an `Env` record; everything the repository itself computes is embedded
as executable Lean definitions over `Int` and `ℚ` (Python ints are exact,
and the float arithmetic performed here is exact decimal arithmetic at the
granularity the claims discuss, so `ℚ` is the faithful carrier).
-/

namespace ChartAPI

/-! ### Python primitive semantics -/

/-- Python `int(q)` for a real value: truncation toward zero. -/
def pyTrunc (q : ℚ) : ℤ := if 0 ≤ q then ⌊q⌋ else -⌊-q⌋

/-- Python `q % 1` for a float: `q - floor(q)`, always in `[0,1)`. -/
def pyMod1 (q : ℚ) : ℚ := q - ⌊q⌋

/-- Python `abs` on numbers. -/
def pyAbs (q : ℚ) : ℚ := if q < 0 then -q else q

/-- Round-half-to-even to an integer (Python's rounding mode for `round`). -/
def roundHalfEven (q : ℚ) : ℤ :=
  let f := ⌊q⌋
  let r := q - (f : ℚ)
  if r < 1/2 then f
  else if 1/2 < r then f + 1
  else if f % 2 = 0 then f else f + 1

/-- Python `round(q, 2)`: round to two decimal places, ties to even. -/
def round2 (q : ℚ) : ℚ := (roundHalfEven (q * 100) : ℚ) / 100

/-- Split a character list at every occurrence of `c`
(the semantics of Python's `str.split(sep)` for a one-character separator:
`"".split("-") == [""]`, and adjacent separators yield empty pieces). -/
def splitChar (c : Char) : List Char → List (List Char)
  | [] => [[]]
  | a :: rest =>
    let r := splitChar c rest
    if a = c then [] :: r
    else
      match r with
      | [] => [[a]]
      | h :: t => (a :: h) :: t

/-- Strip leading and trailing whitespace (Python `int`/`float` accept it). -/
def trimChars (l : List Char) : List Char :=
  ((l.dropWhile Char.isWhitespace).reverse.dropWhile Char.isWhitespace).reverse

/-- Numeric value of a digit list (no validation). -/
def natOfDigits (l : List Char) : Nat :=
  l.foldl (fun a c => a * 10 + (c.toNat - 48)) 0

/-- A nonempty all-digit list, or `none`. -/
def digitsVal? (l : List Char) : Option Nat :=
  if l ≠ [] ∧ l.all Char.isDigit then some (natOfDigits l) else none

/-- Python `int(s)` on a string: optional surrounding whitespace, optional
sign, then decimal digits; anything else raises `ValueError` (here `none`).
(Underscore digit grouping, an exotic acceptance of Python's parser, is not
modelled; no claim involves it.) -/
def pyIntChars (l : List Char) : Option Int :=
  match trimChars l with
  | '+' :: rest => (digitsVal? rest).map (fun n => (n : Int))
  | '-' :: rest => (digitsVal? rest).map (fun n => -(n : Int))
  | l2 => (digitsVal? l2).map (fun n => (n : Int))

/-- Parsing `y, m, d = map(int, date_str.split("-"))`: exactly three
pieces, each a Python integer literal; otherwise a `ValueError`
propagates (here `none`). -/
def parseDate (s : String) : Option (Int × Int × Int) :=
  match (splitChar '-' s.toList).map pyIntChars with
  | [some y, some mo, some d] => some (y, mo, d)
  | _ => none

/-- Parsing `hh, mm = map(int, time_str.split(":"))`: exactly two
pieces. -/
def parseTime (s : String) : Option (Int × Int) :=
  match (splitChar ':' s.toList).map pyIntChars with
  | [some hh, some mm] => some (hh, mm)
  | _ => none

/-- Magnitude part of Python `float(s)`: `digits[.digits]` with at least one
digit (the decimal subset of the float grammar; exponents/inf/nan are not
modelled, no claim involves them). -/
def pyFloatMag (l : List Char) : Option ℚ :=
  match l.span (fun c => c ≠ '.') with
  | (ip, rest) =>
    match rest with
    | [] => (digitsVal? ip).map (fun n => (n : ℚ))
    | _ :: fp =>
      if ip.all Char.isDigit && fp.all Char.isDigit && !(ip.isEmpty && fp.isEmpty) then
        some ((natOfDigits ip : ℚ) + (natOfDigits fp : ℚ) / (10 : ℚ) ^ fp.length)
      else none

/-- Python `float(s)` on a string (decimal subset). -/
def pyFloatOfString (s : String) : Option ℚ :=
  match trimChars s.toList with
  | '+' :: rest => pyFloatMag rest
  | '-' :: rest => (pyFloatMag rest).map (fun q => -q)
  | l => pyFloatMag l

/-! ### Calendar arithmetic (Python `datetime`) -/

/-- Gregorian leap year. -/
def isLeap (y : Int) : Bool :=
  (y % 4 == 0 && y % 100 != 0) || y % 400 == 0

/-- Days in a month of the proleptic Gregorian calendar. -/
def daysInMonth (y mo : Int) : Int :=
  if mo = 2 then (if isLeap y then 29 else 28)
  else if mo = 4 ∨ mo = 6 ∨ mo = 9 ∨ mo = 11 then 30
  else 31

/-- Validity of `datetime(y, mo, d, hh, mm)`: out-of-range components raise
`ValueError` (Python's `MINYEAR = 1`, `MAXYEAR = 9999`). -/
def datetimeValid (y mo d hh mm : Int) : Bool :=
  decide (1 ≤ y ∧ y ≤ 9999 ∧ 1 ≤ mo ∧ mo ≤ 12 ∧ 1 ≤ d ∧ d ≤ daysInMonth y mo ∧
    0 ≤ hh ∧ hh ≤ 23 ∧ 0 ≤ mm ∧ mm ≤ 59)

/-- Calendar successor of a day. -/
def nextDay : Int × Int × Int → Int × Int × Int
  | (y, mo, d) =>
    if d < daysInMonth y mo then (y, mo, d + 1)
    else if mo < 12 then (y, mo + 1, 1)
    else (y + 1, 1, 1)

/-- Calendar predecessor of a day. -/
def prevDay : Int × Int × Int → Int × Int × Int
  | (y, mo, d) =>
    if 1 < d then (y, mo, d - 1)
    else if 1 < mo then (y, mo - 1, daysInMonth y (mo - 1))
    else (y - 1, 12, 31)

/-- Iterate a function. -/
def iterN (f : α → α) : Nat → α → α
  | 0, a => a
  | n + 1, a => iterN f n (f a)

/-- Shift a calendar day by a signed number of days. -/
def addDays (p : Int × Int × Int) (n : Int) : Int × Int × Int :=
  if 0 ≤ n then iterN nextDay n.toNat p else iterN prevDay (-n).toNat p

/-! ### External collaborators

`timezonefinder.TimezoneFinder` and the pytz rule table are external
libraries; they enter the embedding as opaque function fields.  A pytz
timezone object carries its identifier (`tz.zone`, which pytz sets to the
name it was constructed from) and the rule-table localization:
`localize(naive, is_dst=None)` either returns a fixed-second UTC offset or
raises (ambiguous/nonexistent local time) — modelled by `Option`; the
retry `localize(naive, is_dst=False)` always produces an offset. -/

structure TZ where
  zone : String
  localizeAmb : Int → Int → Int → Int → Int → Option Int
  localizeStd : Int → Int → Int → Int → Int → Int

structure Env where
  timezone_at : ℚ → ℚ → Option String
  timezone : String → TZ

/-- The `try: tz.localize(naive, is_dst=None) except: tz.localize(naive,
is_dst=False)` block, as the offset (in seconds) it produces. -/
def resolveOffsetSec (tz : TZ) (y mo d hh mm : Int) : Int :=
  match tz.localizeAmb y mo d hh mm with
  | some o => o
  | none => tz.localizeStd y mo d hh mm

/-! ### The converter (`get_local_and_ut`) -/

/-- A `datetime` value with `tzinfo=pytz.UTC` as built by the converter. -/
structure UTDt where
  year : Int
  month : Int
  day : Int
  hour : Int
  minute : Int
  second : Int
deriving DecidableEq

/-- The dict returned by `get_local_and_ut` (the ISO strings are the
rendering of the timestamps; the UT one is kept as its datetime value). -/
structure UTResult where
  tz_name : Option String
  utc_offset_hours : ℚ
  ut_dt : UTDt
  ut_hours : ℚ
deriving DecidableEq

/-- The shift `local_dt.astimezone(pytz.UTC)`: move the local wall-clock
instant by the zone offset, with date rollover. -/
def utShift (y mo d hh mm offSec : Int) : UTDt :=
  let total := hh * 3600 + mm * 60 - offSec
  let sod := total % 86400
  let dd := addDays (y, mo, d) (total / 86400)
  ⟨dd.1, dd.2.1, dd.2.2, sod / 3600, sod % 3600 / 60, sod % 60⟩

/-- The guard of the pre-1990 Ukraine override:
`FORCE_UA_UTC3_PRE1990 and tz_label in ("Europe/Kyiv", "Europe/Kiev") and
y < 1990` and (nested) `abs(offset_hours - 3.0) > 1e-6`. -/
def overCond (force : Bool) (label : String) (y : Int) (offh : ℚ) : Bool :=
  force && (label == "Europe/Kyiv" || label == "Europe/Kiev") &&
    decide (y < 1990) && decide (1/1000000 < pyAbs (offh - 3))

/-- The naive-UT result dict built when the zone is unknown (`not
tz_name`). -/
def unknownResult (y mo d hh mm : Int) : UTResult :=
  { tz_name := none
    utc_offset_hours := 0
    ut_dt := ⟨y, mo, d, hh, mm, 0⟩
    ut_hours := (hh : ℚ) + (mm : ℚ) / 60 }

/-- Body of `get_local_and_ut` after parsing and `datetime` construction
succeeded.  `if not tz_name` is a truthiness test, so both a `None` and an
empty-string identifier take the UT-passthrough branch.  One later
statement can still raise: line 65 reads
`offset = local_dt.utcoffset() or pytz.timedelta(0)`, and the zero
timedelta is falsy while the `pytz` module has no `timedelta` attribute,
so every resolution whose UTC offset is exactly 0 seconds raises
`AttributeError` there (before the override check) instead of returning —
modelled by `none`. -/
def convertCore (force : Bool) (env : Env) (y mo d hh mm : Int) (lat lon : ℚ) :
    Option UTResult :=
  match env.timezone_at lat lon with
  | none => some (unknownResult y mo d hh mm)
  | some nm =>
      if nm = "" then some (unknownResult y mo d hh mm)
      else
        let tz := env.timezone nm
        let offSec := resolveOffsetSec tz y mo d hh mm
        if offSec = 0 then none
        else
          let offh : ℚ := (offSec : ℚ) / 3600
          if overCond force tz.zone y offh then
            let uth : ℚ := ((hh : ℚ) + (mm : ℚ) / 60) - 3
            some { tz_name := some (tz.zone ++ " (forced_UTC+3_pre1990)")
                   utc_offset_hours := 3
                   ut_dt := ⟨y, mo, d, pyTrunc uth % 24, pyTrunc (pyMod1 uth * 60), 0⟩
                   ut_hours := uth }
          else
            let u := utShift y mo d hh mm offSec
            some { tz_name := some tz.zone
                   utc_offset_hours := round2 offh
                   ut_dt := u
                   ut_hours := (u.hour : ℚ) + (u.minute : ℚ) / 60 + (u.second : ℚ) / 3600 }

/-- The converter `get_local_and_ut(date_str, time_str, lat, lon)`: parse
the date and time strings and build the naive `datetime` (a `ValueError`
from any of these propagates to the caller, modelled by `none`), then run
the conversion body, whose own `AttributeError` on zero-offset
resolutions propagates the same way. -/
def get_local_and_ut (force : Bool) (env : Env) (ds ts : String) (lat lon : ℚ) :
    Option UTResult :=
  match parseDate ds with
  | none => none
  | some (y, mo, d) =>
    match parseTime ts with
    | none => none
    | some (hh, mm) =>
      if datetimeValid y mo d hh mm = true then
        convertCore force env y mo d hh mm lat lon
      else none

/-- Does the historical override fire on this input?  (Path predicate of
the source's override branch; a falsy identifier takes the UT-passthrough
branch first, so the override cannot fire there.) -/
def overrideFires (force : Bool) (env : Env) (y mo d hh mm : Int) (lat lon : ℚ) : Bool :=
  match env.timezone_at lat lon with
  | none => false
  | some nm =>
    if nm = "" then false
    else
      overCond force (env.timezone nm).zone y
        ((resolveOffsetSec (env.timezone nm) y mo d hh mm : ℚ) / 3600)

/-- The offset (in hours) the conversion actually applies to the local
clock reading: 3 on the override path, 0 on the unknown-zone (or falsy
identifier) path, the unrounded rule-table offset otherwise. -/
def trueOffsetHours (force : Bool) (env : Env) (y mo d hh mm : Int) (lat lon : ℚ) : ℚ :=
  match env.timezone_at lat lon with
  | none => 0
  | some nm =>
    if nm = "" then 0
    else
      let offh : ℚ := (resolveOffsetSec (env.timezone nm) y mo d hh mm : ℚ) / 3600
      if overCond force (env.timezone nm).zone y offh then 3 else offh

/-! ### The request handler (`natal`) -/

/-- A JSON scalar as Python receives it from `request.get_json()`.  (The
handler only ever reads the four scalar fields, so containers are not
needed; a JSON `null` and a missing key both read back as Python `None`,
i.e. `Option.none` at the `req` level.) -/
inductive PyVal where
  | str (s : String)
  | num (q : ℚ)
deriving DecidableEq

/-- Python truthiness of `data.get(key)`: `None`, `""` and `0` are falsy. -/
def truthy : Option PyVal → Bool
  | Option.none => false
  | some (PyVal.str s) => !(s.isEmpty)
  | some (PyVal.num q) => decide (q ≠ 0)

/-- Python `float(v)` on a JSON scalar (`ValueError` on a bad string). -/
def pyFloatVal : PyVal → Option ℚ
  | PyVal.num q => some q
  | PyVal.str s => pyFloatOfString s

/-- Outcome of a `/natal` request.  `badRequest` is the
`{"error": "Need: date, time, lat, lon"}, 400` return; `serverError` is
the catch-all `{"error": str(e)}, 500`; `ok` carries the converter dict
(the ephemeris numbers in the 200 body come from the external swisseph
collaborator and are out of the core's scope). -/
inductive Response where
  | badRequest
  | serverError
  | ok (tzinfo : UTResult)
deriving DecidableEq

/-- The `/natal` handler on a parsed JSON body `req`. -/
def natal (force : Bool) (env : Env) (req : String → Option PyVal) : Response :=
  if !(truthy (req "date") && truthy (req "time") && truthy (req "lat") &&
       truthy (req "lon")) then
    Response.badRequest
  else
    match req "lat", req "lon" with
    | some lv, some lov =>
      match pyFloatVal lv, pyFloatVal lov with
      | some latf, some lonf =>
        match req "date", req "time" with
        | some (PyVal.str ds), some (PyVal.str ts) =>
          match get_local_and_ut force env ds ts latf lonf with
          | some r => Response.ok r
          | none => Response.serverError
        | _, _ => Response.serverError
      | _, _ => Response.serverError
    | _, _ => Response.serverError

/-! ### Concrete collaborator instances used by witnesses -/

/-- A resolver that uniformly answers `nm`, whose rule table answers a
fixed offset of `off` seconds without ambiguity. -/
def constEnv (nm : String) (off : Int) : Env :=
  { timezone_at := fun _ _ => some nm
    timezone := fun s =>
      { zone := s
        localizeAmb := fun _ _ _ _ _ => some off
        localizeStd := fun _ _ _ _ _ => off } }

/-- A resolver that finds no zone anywhere (open-ocean coordinates). -/
def envUnknown : Env :=
  { timezone_at := fun _ _ => none
    timezone := fun s =>
      { zone := s
        localizeAmb := fun _ _ _ _ _ => some 0
        localizeStd := fun _ _ _ _ _ => 0 } }

/-- A rule table whose ambiguity-aware localization always raises (a DST
gap), with `is_dst=False` answering `off` seconds. -/
def gapEnv (nm : String) (off : Int) : Env :=
  { timezone_at := fun _ _ => some nm
    timezone := fun s =>
      { zone := s
        localizeAmb := fun _ _ _ _ _ => none
        localizeStd := fun _ _ _ _ _ => off } }

/-- A request body whose birth place sits on the equator (`lat = 0`). -/
def reqZeroLat : String → Option PyVal := fun k =>
  if k = "date" then some (PyVal.str "2000-01-01")
  else if k = "time" then some (PyVal.str "12:00")
  else if k = "lat" then some (PyVal.num 0)
  else if k = "lon" then some (PyVal.num 30)
  else none

/-- A request body carrying an explicit offset field alongside the New
York scenario fields. -/
def reqOffset : String → Option PyVal := fun k =>
  if k = "date" then some (PyVal.str "2023-01-01")
  else if k = "time" then some (PyVal.str "12:00")
  else if k = "lat" then some (PyVal.num (4071/100))
  else if k = "lon" then some (PyVal.num (-74))
  else if k = "offset" then some (PyVal.str "-05:00")
  else none

/-- A request body whose date string is unparseable. -/
def reqBadDate : String → Option PyVal := fun k =>
  if k = "date" then some (PyVal.str "not-a-date")
  else if k = "time" then some (PyVal.str "12:00")
  else if k = "lat" then some (PyVal.str "10.5")
  else if k = "lon" then some (PyVal.str "20.5")
  else none

/-- A request body whose time string is unparseable (date well-formed). -/
def reqBadTime : String → Option PyVal := fun k =>
  if k = "date" then some (PyVal.str "2023-01-01")
  else if k = "time" then some (PyVal.str "half past nine")
  else if k = "lat" then some (PyVal.str "10.5")
  else if k = "lon" then some (PyVal.str "20.5")
  else none

/-- A request body landing in a DST spring-forward gap in a zone whose
standard offset is zero (the Europe/London scenario). -/
def reqLondonGap : String → Option PyVal := fun k =>
  if k = "date" then some (PyVal.str "2024-03-31")
  else if k = "time" then some (PyVal.str "01:30")
  else if k = "lat" then some (PyVal.str "51.5")
  else if k = "lon" then some (PyVal.str "-0.1")
  else none

/-- Overwrite one field of a request body. -/
def setField (req : String → Option PyVal) (key : String) (v : Option PyVal) :
    String → Option PyVal :=
  fun k => if k = key then v else req k

/-! ### Structural lemmas -/

/-- Once both strings parse and the `datetime` is valid, the converter is
the conversion body. -/
theorem get_eq_core (force : Bool) (env : Env) (ds ts : String) (lat lon : ℚ)
    {y mo d hh mm : Int}
    (hd : parseDate ds = some (y, mo, d)) (ht : parseTime ts = some (hh, mm))
    (hv : datetimeValid y mo d hh mm = true) :
    get_local_and_ut force env ds ts lat lon =
      convertCore force env y mo d hh mm lat lon := by
  unfold get_local_and_ut
  rw [hd, ht]
  simp [hv]

/-- A failed date parse propagates out of the converter. -/
theorem get_date_parse_fail (force : Bool) (env : Env) (ds ts : String) (lat lon : ℚ)
    (hd : parseDate ds = none) :
    get_local_and_ut force env ds ts lat lon = none := by
  unfold get_local_and_ut
  rw [hd]

/-- A failed time parse propagates out of the converter. -/
theorem get_time_parse_fail (force : Bool) (env : Env) (ds ts : String) (lat lon : ℚ)
    (ht : parseTime ts = none) :
    get_local_and_ut force env ds ts lat lon = none := by
  unfold get_local_and_ut
  cases hd : parseDate ds with
  | none => rfl
  | some v =>
    rw [ht]

/-- Unknown-zone branch of the converter body. -/
theorem core_unknown (force : Bool) (env : Env) (y mo d hh mm : Int) (lat lon : ℚ)
    (hz : env.timezone_at lat lon = none) :
    convertCore force env y mo d hh mm lat lon = some (unknownResult y mo d hh mm) := by
  unfold convertCore
  rw [hz]

/-- An empty-string identifier is falsy, so `if not tz_name` also takes
the UT-passthrough branch. -/
theorem core_empty_name (force : Bool) (env : Env) (y mo d hh mm : Int) (lat lon : ℚ)
    (hz : env.timezone_at lat lon = some "") :
    convertCore force env y mo d hh mm lat lon = some (unknownResult y mo d hh mm) := by
  unfold convertCore
  rw [hz]
  simp

/-- A truthy identifier whose rule-table offset is exactly zero crashes at
`local_dt.utcoffset() or pytz.timedelta(0)`: the zero timedelta is falsy
and `pytz.timedelta` does not exist, so the conversion raises instead of
returning. -/
theorem core_zero_offset (force : Bool) (env : Env) (y mo d hh mm : Int) (lat lon : ℚ)
    (nm : String) (hz : env.timezone_at lat lon = some nm) (hne : ¬ nm = "")
    (hoff : resolveOffsetSec (env.timezone nm) y mo d hh mm = 0) :
    convertCore force env y mo d hh mm lat lon = none := by
  unfold convertCore
  rw [hz]
  simp [hne, hoff]

/-- Override branch of the converter body. -/
theorem core_override (force : Bool) (env : Env) (y mo d hh mm : Int) (lat lon : ℚ)
    (nm : String) (hz : env.timezone_at lat lon = some nm) (hne : ¬ nm = "")
    (hoff : ¬ resolveOffsetSec (env.timezone nm) y mo d hh mm = 0)
    (hc : overCond force (env.timezone nm).zone y
        ((resolveOffsetSec (env.timezone nm) y mo d hh mm : ℚ) / 3600) = true) :
    convertCore force env y mo d hh mm lat lon =
      some { tz_name := some ((env.timezone nm).zone ++ " (forced_UTC+3_pre1990)")
             utc_offset_hours := 3
             ut_dt := ⟨y, mo, d, pyTrunc ((hh : ℚ) + (mm : ℚ) / 60 - 3) % 24,
                       pyTrunc (pyMod1 ((hh : ℚ) + (mm : ℚ) / 60 - 3) * 60), 0⟩
             ut_hours := (hh : ℚ) + (mm : ℚ) / 60 - 3 } := by
  unfold convertCore
  rw [hz]
  simp [hne, hoff, hc]

/-- Default (rule table, no override) branch of the converter body. -/
theorem core_default (force : Bool) (env : Env) (y mo d hh mm : Int) (lat lon : ℚ)
    (nm : String) (hz : env.timezone_at lat lon = some nm) (hne : ¬ nm = "")
    (hoff : ¬ resolveOffsetSec (env.timezone nm) y mo d hh mm = 0)
    (hc : overCond force (env.timezone nm).zone y
        ((resolveOffsetSec (env.timezone nm) y mo d hh mm : ℚ) / 3600) = false) :
    convertCore force env y mo d hh mm lat lon =
      some { tz_name := some (env.timezone nm).zone
             utc_offset_hours :=
               round2 ((resolveOffsetSec (env.timezone nm) y mo d hh mm : ℚ) / 3600)
             ut_dt := utShift y mo d hh mm (resolveOffsetSec (env.timezone nm) y mo d hh mm)
             ut_hours :=
               ((utShift y mo d hh mm (resolveOffsetSec (env.timezone nm) y mo d hh mm)).hour : ℚ) +
               ((utShift y mo d hh mm (resolveOffsetSec (env.timezone nm) y mo d hh mm)).minute : ℚ) / 60 +
               ((utShift y mo d hh mm (resolveOffsetSec (env.timezone nm) y mo d hh mm)).second : ℚ) / 3600 } := by
  unfold convertCore
  rw [hz]
  simp [hne, hoff, hc]

/-! ### Arithmetic lemmas about the shifted timestamp -/

/-- Reading hours/minutes/seconds off a second count and recombining them
as decimal hours is division by 3600. -/
theorem secondsDecomp (s : ℤ) :
    ((s / 3600 : ℤ) : ℚ) + ((s % 3600 / 60 : ℤ) : ℚ) / 60 + ((s % 60 : ℤ) : ℚ) / 3600 =
      (s : ℚ) / 3600 := by
  have h1 : (3600 : ℤ) * (s / 3600) + s % 3600 = s := Int.ediv_add_emod s 3600
  have h2 : (60 : ℤ) * (s % 3600 / 60) + s % 3600 % 60 = s % 3600 :=
    Int.ediv_add_emod (s % 3600) 60
  have h3 : s % 3600 % 60 = s % 60 := Int.emod_emod_of_dvd s (by norm_num)
  have c1 : (3600 : ℚ) * ((s / 3600 : ℤ) : ℚ) + ((s % 3600 : ℤ) : ℚ) = (s : ℚ) := by
    exact_mod_cast congrArg (fun z : ℤ => (z : ℚ)) h1
  have c2 : (60 : ℚ) * ((s % 3600 / 60 : ℤ) : ℚ) + ((s % 3600 % 60 : ℤ) : ℚ) =
      ((s % 3600 : ℤ) : ℚ) := by
    exact_mod_cast congrArg (fun z : ℤ => (z : ℚ)) h2
  have c3 : ((s % 3600 % 60 : ℤ) : ℚ) = ((s % 60 : ℤ) : ℚ) := by exact_mod_cast h3
  field_simp
  linarith

/-- The decimal hours the default path recomputes from the shifted
timestamp equal the UT second-of-day over 3600. -/
theorem utShift_hours_eq (y mo d hh mm offSec : Int) :
    ((utShift y mo d hh mm offSec).hour : ℚ) +
      ((utShift y mo d hh mm offSec).minute : ℚ) / 60 +
      ((utShift y mo d hh mm offSec).second : ℚ) / 3600 =
    (((hh * 3600 + mm * 60 - offSec) % 86400 : ℤ) : ℚ) / 3600 := by
  unfold utShift
  exact secondsDecomp ((hh * 3600 + mm * 60 - offSec) % 86400)

/-- The same decimal hours as an explicit normalization of
`local − offset` into `[0,24)`. -/
theorem utShift_hours_congr (y mo d hh mm offSec : Int) :
    ∃ k : ℤ,
      ((utShift y mo d hh mm offSec).hour : ℚ) +
        ((utShift y mo d hh mm offSec).minute : ℚ) / 60 +
        ((utShift y mo d hh mm offSec).second : ℚ) / 3600 =
      (hh : ℚ) + (mm : ℚ) / 60 - (offSec : ℚ) / 3600 + 24 * k := by
  refine ⟨-((hh * 3600 + mm * 60 - offSec) / 86400), ?_⟩
  rw [utShift_hours_eq]
  have h1 : (86400 : ℤ) * ((hh * 3600 + mm * 60 - offSec) / 86400) +
      (hh * 3600 + mm * 60 - offSec) % 86400 = hh * 3600 + mm * 60 - offSec :=
    Int.ediv_add_emod _ 86400
  have c1 : (86400 : ℚ) * (((hh * 3600 + mm * 60 - offSec) / 86400 : ℤ) : ℚ) +
      (((hh * 3600 + mm * 60 - offSec) % 86400 : ℤ) : ℚ) =
      (hh : ℚ) * 3600 + (mm : ℚ) * 60 - (offSec : ℚ) := by
    exact_mod_cast congrArg (fun z : ℤ => (z : ℚ)) h1
  push_cast
  field_simp
  linarith

/-- Decimal hours recomputed from the shifted timestamp lie in `[0,24)`. -/
theorem utShift_hours_range (y mo d hh mm offSec : Int) :
    0 ≤ ((utShift y mo d hh mm offSec).hour : ℚ) +
        ((utShift y mo d hh mm offSec).minute : ℚ) / 60 +
        ((utShift y mo d hh mm offSec).second : ℚ) / 3600 ∧
    ((utShift y mo d hh mm offSec).hour : ℚ) +
        ((utShift y mo d hh mm offSec).minute : ℚ) / 60 +
        ((utShift y mo d hh mm offSec).second : ℚ) / 3600 < 24 := by
  rw [utShift_hours_eq]
  have h0 : (0 : ℤ) ≤ (hh * 3600 + mm * 60 - offSec) % 86400 :=
    Int.emod_nonneg _ (by norm_num)
  have h1 : (hh * 3600 + mm * 60 - offSec) % 86400 < 86400 :=
    Int.emod_lt_of_pos _ (by norm_num)
  have c0 : (0 : ℚ) ≤ (((hh * 3600 + mm * 60 - offSec) % 86400 : ℤ) : ℚ) := by
    exact_mod_cast h0
  have c1 : (((hh * 3600 + mm * 60 - offSec) % 86400 : ℤ) : ℚ) < 86400 := by
    exact_mod_cast h1
  constructor
  · positivity
  · linarith

/-- A string never equals itself with the override marker appended. -/
theorem marker_changes (s : String) :
    some (s ++ " (forced_UTC+3_pre1990)") ≠ some s := by
  intro h
  have h2 : s ++ " (forced_UTC+3_pre1990)" = s := Option.some.inj h
  have h3 := congrArg String.length h2
  rw [String.length_append] at h3
  have h4 : (" (forced_UTC+3_pre1990)").length = 23 := rfl
  omega

/-- The override guard as a proposition. -/
theorem overCond_iff (force : Bool) (label : String) (y : Int) (offh : ℚ) :
    overCond force label y offh = true ↔
      (force = true ∧ (label = "Europe/Kyiv" ∨ label = "Europe/Kiev") ∧ y < 1990 ∧
        1/1000000 < pyAbs (offh - 3)) := by
  unfold overCond
  simp [and_assoc]

/-! ### Claim theorems -/

/-- C1: for every conversion that produces a result with the resolver
having returned a (truthy) identifier, the historical override fired —
observable as the marker-suffixed identifier together with the
exactly-3.0 offset — iff the toggle is enabled, the resolved label is
Europe/Kyiv or Europe/Kiev, the calendar year is strictly below 1990, and
the rule-table offset differs from 3.0 by more than 1e-6; in particular
it cannot fire for year 1990 or later, nor for any other label, and when
it fires `utc_offset_hours` is exactly 3.  (A zero-offset resolution
produces no result at all — the `or pytz.timedelta(0)` crash — so it is
outside the claim's "every conversion".) -/
theorem C1_override_iff (force : Bool) (env : Env) (ds ts : String) (lat lon : ℚ)
    (y mo d hh mm : Int) (nm : String) (r : UTResult)
    (hd : parseDate ds = some (y, mo, d)) (ht : parseTime ts = some (hh, mm))
    (hv : datetimeValid y mo d hh mm = true)
    (hz : env.timezone_at lat lon = some nm) (hne : ¬ nm = "")
    (hr : get_local_and_ut force env ds ts lat lon = some r) :
    (r.tz_name = some ((env.timezone nm).zone ++ " (forced_UTC+3_pre1990)") ∧
        r.utc_offset_hours = 3) ↔
      (force = true ∧
        ((env.timezone nm).zone = "Europe/Kyiv" ∨ (env.timezone nm).zone = "Europe/Kiev") ∧
        y < 1990 ∧
        1/1000000 <
          pyAbs ((resolveOffsetSec (env.timezone nm) y mo d hh mm : ℚ) / 3600 - 3)) := by
  rw [get_eq_core force env ds ts lat lon hd ht hv] at hr
  by_cases hoff : resolveOffsetSec (env.timezone nm) y mo d hh mm = 0
  · rw [core_zero_offset force env y mo d hh mm lat lon nm hz hne hoff] at hr
    exact absurd hr (by simp)
  · cases hc : overCond force (env.timezone nm).zone y
        ((resolveOffsetSec (env.timezone nm) y mo d hh mm : ℚ) / 3600) with
    | true =>
      rw [core_override force env y mo d hh mm lat lon nm hz hne hoff hc] at hr
      obtain rfl := Option.some.inj hr
      exact ⟨fun _ => (overCond_iff _ _ _ _).mp hc, fun _ => ⟨rfl, rfl⟩⟩
    | false =>
      rw [core_default force env y mo d hh mm lat lon nm hz hne hoff hc] at hr
      obtain rfl := Option.some.inj hr
      constructor
      · rintro ⟨h1, -⟩
        exact absurd h1.symm (marker_changes _)
      · intro hrhs
        rw [(overCond_iff _ _ _ _).mpr hrhs] at hc
        exact absurd hc (by simp)

/-- C1 witness: a pre-1990 Kyiv-region conversion with a rule-table offset
of +2 h (7200 s): the override fires and is the only way it fires. -/
theorem C1_witness :
    (1985 : Int) < 1990 ∧
    ((some ("Europe/Kiev" ++ " (forced_UTC+3_pre1990)") =
          some ("Europe/Kiev" ++ " (forced_UTC+3_pre1990)") ∧ (3 : ℚ) = 3) ↔
      (true = true ∧ (("Europe/Kiev" : String) = "Europe/Kyiv" ∨
          ("Europe/Kiev" : String) = "Europe/Kiev") ∧
        (1985 : Int) < 1990 ∧ 1/1000000 < pyAbs (((7200 : Int) : ℚ) / 3600 - 3))) :=
  ⟨by decide,
    C1_override_iff true (constEnv "Europe/Kiev" 7200) "1985-03-10" "14:30" (101/2) (61/2)
      1985 3 10 14 30 "Europe/Kiev"
      { tz_name := some ("Europe/Kiev" ++ " (forced_UTC+3_pre1990)")
        utc_offset_hours := 3
        ut_dt := ⟨1985, 3, 10, 11, 30, 0⟩
        ut_hours := 23/2 }
      (by decide) (by decide) (by decide) rfl (by decide) (by with_unfolding_all rfl)⟩

/-- C4: when the resolver finds no timezone, the converter succeeds with a
zero offset, `ut_hours = hh + mm/60`, and an absent identifier. -/
theorem C4_unknown_zone (force : Bool) (env : Env) (ds ts : String) (lat lon : ℚ)
    (y mo d hh mm : Int)
    (hd : parseDate ds = some (y, mo, d)) (ht : parseTime ts = some (hh, mm))
    (hv : datetimeValid y mo d hh mm = true)
    (hz : env.timezone_at lat lon = none) :
    get_local_and_ut force env ds ts lat lon =
      some { tz_name := none
             utc_offset_hours := 0
             ut_dt := ⟨y, mo, d, hh, mm, 0⟩
             ut_hours := (hh : ℚ) + (mm : ℚ) / 60 } := by
  rw [get_eq_core force env ds ts lat lon hd ht hv,
    core_unknown force env y mo d hh mm lat lon hz]
  rfl

/-- C4 witness: the spec's open-ocean scenario (2020-06-01 09:00 at
latitude 0, longitude −160). -/
theorem C4_witness :
    envUnknown.timezone_at 0 (-160) = none ∧
    get_local_and_ut true envUnknown "2020-06-01" "09:00" 0 (-160) =
      some { tz_name := none
             utc_offset_hours := 0
             ut_dt := ⟨2020, 6, 1, 9, 0, 0⟩
             ut_hours := ((9 : Int) : ℚ) + ((0 : Int) : ℚ) / 60 } :=
  ⟨rfl, C4_unknown_zone true envUnknown "2020-06-01" "09:00" 0 (-160) 2020 6 1 9 0
    (by decide) (by decide) (by decide) rfl⟩

/-- C6 (code bug): the gap retry mechanism itself matches the claim —
when ambiguity-aware localization raises, the converter proceeds with the
`is_dst=False` offset (first two conjuncts) — but the claim's "this
failure is never surfaced: localization always produces an offset when
the zone identifier is known" is broken by a slip one line later: if the
retried standard offset is exactly zero (the Europe/London spring-forward
gap resolving to GMT), `local_dt.utcoffset() or pytz.timedelta(0)`
evaluates its fallback, `pytz` has no `timedelta` attribute, and the
conversion raises `AttributeError`, which the handler surfaces as a 500
(last two conjuncts evaluate the code on that failing input). -/
theorem C6_zero_gap_crash :
    ((gapEnv "Europe/London" 0).timezone "Europe/London").localizeAmb 2024 3 31 1 30 = none ∧
    resolveOffsetSec ((gapEnv "Europe/London" 0).timezone "Europe/London") 2024 3 31 1 30 =
      ((gapEnv "Europe/London" 0).timezone "Europe/London").localizeStd 2024 3 31 1 30 ∧
    get_local_and_ut true (gapEnv "Europe/London" 0) "2024-03-31" "01:30" (103/2) (-1/10) =
      none ∧
    natal true (gapEnv "Europe/London" 0) reqLondonGap = Response.serverError := by
  refine ⟨rfl, rfl, ?_, ?_⟩
  · with_unfolding_all rfl
  · with_unfolding_all rfl

/-- C9: a request whose `lat` or `lon` field is the number 0 — a perfectly
valid coordinate — is rejected with the 400 missing-fields error, because
field presence is tested with Python truthiness and `0` is falsy. -/
theorem C9_zero_coordinate_rejected (force : Bool) (env : Env)
    (req : String → Option PyVal) :
    (req "lat" = some (PyVal.num 0) → natal force env req = Response.badRequest) ∧
    (req "lon" = some (PyVal.num 0) → natal force env req = Response.badRequest) := by
  have ht0 : truthy (some (PyVal.num 0)) = false := by
    with_unfolding_all rfl
  constructor <;> intro h <;> unfold natal <;> rw [h, ht0] <;> simp

/-- C9 witness: an equator request (`lat = 0`) with all fields present is
bounced as a 400. -/
theorem C9_witness :
    reqZeroLat "lat" = some (PyVal.num 0) ∧
    natal true envUnknown reqZeroLat = Response.badRequest :=
  ⟨by decide, (C9_zero_coordinate_rejected true envUnknown reqZeroLat).1 (by decide)⟩

/-- Python truncation agrees with the floor on nonnegative values. -/
theorem pyTrunc_of_nonneg (q : ℚ) (h : 0 ≤ q) : pyTrunc q = ⌊q⌋ := if_pos h

/-- The fractional part `q % 1` is nonnegative. -/
theorem pyMod1_nonneg (q : ℚ) : 0 ≤ pyMod1 q := by
  unfold pyMod1
  have := Int.floor_le q
  linarith

/-- A nonzero rational of magnitude below 24 is no integer multiple of
24 (used to rule out 24-hour-wrap explanations of a mismatch). -/
theorem small_ne_24_mult (q : ℚ) (h0 : q ≠ 0) (hl : -24 < q) (hu : q < 24) (k : ℤ) :
    24 * (k : ℚ) ≠ q := by
  intro h
  rcases lt_trichotomy k 0 with hk | hk | hk
  · have h1 : k ≤ -1 := by omega
    have h2 : (k : ℚ) ≤ -1 := by exact_mod_cast h1
    nlinarith
  · subst hk
    simp at h
    exact h0 h.symm
  · have h1 : 1 ≤ k := hk
    have h2 : (1 : ℚ) ≤ (k : ℚ) := by exact_mod_cast h1
    nlinarith

/-- Unfolding `overrideFires` on a resolved, truthy identifier. -/
theorem overrideFires_some (force : Bool) (env : Env) (y mo d hh mm : Int) (lat lon : ℚ)
    (nm : String) (hz : env.timezone_at lat lon = some nm) (hne : ¬ nm = "") :
    overrideFires force env y mo d hh mm lat lon =
      overCond force (env.timezone nm).zone y
        ((resolveOffsetSec (env.timezone nm) y mo d hh mm : ℚ) / 3600) := by
  unfold overrideFires
  rw [hz]
  simp [hne]

/-- Unfolding `overrideFires` on an unknown zone. -/
theorem overrideFires_none (force : Bool) (env : Env) (y mo d hh mm : Int) (lat lon : ℚ)
    (hz : env.timezone_at lat lon = none) :
    overrideFires force env y mo d hh mm lat lon = false := by
  unfold overrideFires
  rw [hz]

/-- Unfolding `overrideFires` on a falsy (empty) identifier. -/
theorem overrideFires_empty (force : Bool) (env : Env) (y mo d hh mm : Int) (lat lon : ℚ)
    (hz : env.timezone_at lat lon = some "") :
    overrideFires force env y mo d hh mm lat lon = false := by
  unfold overrideFires
  rw [hz]
  simp

/-- Unfolding `trueOffsetHours` on an unknown zone. -/
theorem trueOffsetHours_none (force : Bool) (env : Env) (y mo d hh mm : Int) (lat lon : ℚ)
    (hz : env.timezone_at lat lon = none) :
    trueOffsetHours force env y mo d hh mm lat lon = 0 := by
  unfold trueOffsetHours
  rw [hz]

/-- Unfolding `trueOffsetHours` on a falsy (empty) identifier. -/
theorem trueOffsetHours_empty (force : Bool) (env : Env) (y mo d hh mm : Int) (lat lon : ℚ)
    (hz : env.timezone_at lat lon = some "") :
    trueOffsetHours force env y mo d hh mm lat lon = 0 := by
  unfold trueOffsetHours
  rw [hz]
  simp

/-- Every successful run of the converter body satisfies
`ut_hours ≡ hh + mm/60 − appliedOffset (mod 24)` for the offset the path
actually applied. -/
theorem core_congruence (force : Bool) (env : Env) (y mo d hh mm : Int) (lat lon : ℚ)
    (r : UTResult) (hr : convertCore force env y mo d hh mm lat lon = some r) :
    ∃ k : ℤ, r.ut_hours =
      (hh : ℚ) + (mm : ℚ) / 60 - trueOffsetHours force env y mo d hh mm lat lon + 24 * k := by
  rcases hz : env.timezone_at lat lon with _ | nm
  · rw [core_unknown force env y mo d hh mm lat lon hz] at hr
    obtain rfl : unknownResult y mo d hh mm = r := Option.some.inj hr
    refine ⟨0, ?_⟩
    rw [trueOffsetHours_none force env y mo d hh mm lat lon hz]
    unfold unknownResult
    push_cast
    ring
  · by_cases hne : nm = ""
    · subst hne
      rw [core_empty_name force env y mo d hh mm lat lon hz] at hr
      obtain rfl : unknownResult y mo d hh mm = r := Option.some.inj hr
      refine ⟨0, ?_⟩
      rw [trueOffsetHours_empty force env y mo d hh mm lat lon hz]
      unfold unknownResult
      push_cast
      ring
    · by_cases hoff : resolveOffsetSec (env.timezone nm) y mo d hh mm = 0
      · rw [core_zero_offset force env y mo d hh mm lat lon nm hz hne hoff] at hr
        exact absurd hr (by simp)
      · cases hc : overCond force (env.timezone nm).zone y
            ((resolveOffsetSec (env.timezone nm) y mo d hh mm : ℚ) / 3600) with
        | true =>
          rw [core_override force env y mo d hh mm lat lon nm hz hne hoff hc] at hr
          obtain rfl := Option.some.inj hr
          refine ⟨0, ?_⟩
          unfold trueOffsetHours
          rw [hz]
          simp only [hne, if_false, hc, if_true]
          ring
        | false =>
          obtain ⟨k, hk⟩ :=
            utShift_hours_congr y mo d hh mm (resolveOffsetSec (env.timezone nm) y mo d hh mm)
          rw [core_default force env y mo d hh mm lat lon nm hz hne hoff hc] at hr
          obtain rfl := Option.some.inj hr
          refine ⟨k, ?_⟩
          unfold trueOffsetHours
          rw [hz]
          simp only [hne, if_false, hc, Bool.false_eq_true]
          exact hk

/-- C2 (amended): on every successful conversion the returned decimal
hours are congruent mod 24 to `hh + mm/60` minus the offset the path
applied (3 on the override path, 0 on the unknown-zone path, the unrounded
rule-table offset otherwise); on every non-override path they are
normalized into [0,24), but on the override path they equal
`hh + mm/60 − 3` exactly, with no normalization (so they can be
negative). -/
theorem C2_ut_hours_relation (force : Bool) (env : Env) (ds ts : String) (lat lon : ℚ)
    (y mo d hh mm : Int) (r : UTResult)
    (hd : parseDate ds = some (y, mo, d)) (ht : parseTime ts = some (hh, mm))
    (hv : datetimeValid y mo d hh mm = true)
    (hr : get_local_and_ut force env ds ts lat lon = some r) :
    (∃ k : ℤ, r.ut_hours =
      (hh : ℚ) + (mm : ℚ) / 60 - trueOffsetHours force env y mo d hh mm lat lon + 24 * k) ∧
    (overrideFires force env y mo d hh mm lat lon = true →
      r.ut_hours = (hh : ℚ) + (mm : ℚ) / 60 - 3) ∧
    (overrideFires force env y mo d hh mm lat lon = false →
      0 ≤ r.ut_hours ∧ r.ut_hours < 24) := by
  rw [get_eq_core force env ds ts lat lon hd ht hv] at hr
  obtain ⟨-, -, -, -, -, -, h7, h8, h9, h10⟩ := of_decide_eq_true hv
  have chh0 : (0 : ℚ) ≤ (hh : ℚ) := by exact_mod_cast h7
  have chh1 : (hh : ℚ) ≤ 23 := by exact_mod_cast h8
  have cmm0 : (0 : ℚ) ≤ (mm : ℚ) := by exact_mod_cast h9
  have cmm1 : (mm : ℚ) ≤ 59 := by exact_mod_cast h10
  refine ⟨core_congruence force env y mo d hh mm lat lon r hr, ?_, ?_⟩
  · intro hf
    rcases hz : env.timezone_at lat lon with _ | nm
    · rw [overrideFires_none force env y mo d hh mm lat lon hz] at hf
      exact absurd hf (by simp)
    · by_cases hne : nm = ""
      · subst hne
        rw [overrideFires_empty force env y mo d hh mm lat lon hz] at hf
        exact absurd hf (by simp)
      · by_cases hoff : resolveOffsetSec (env.timezone nm) y mo d hh mm = 0
        · rw [core_zero_offset force env y mo d hh mm lat lon nm hz hne hoff] at hr
          exact absurd hr (by simp)
        · rw [overrideFires_some force env y mo d hh mm lat lon nm hz hne] at hf
          rw [core_override force env y mo d hh mm lat lon nm hz hne hoff hf] at hr
          obtain rfl := Option.some.inj hr
          rfl
  · intro hf
    rcases hz : env.timezone_at lat lon with _ | nm
    · rw [core_unknown force env y mo d hh mm lat lon hz] at hr
      obtain rfl := Option.some.inj hr
      constructor
      · simp only [unknownResult]
        linarith
      · simp only [unknownResult]
        linarith
    · by_cases hne : nm = ""
      · subst hne
        rw [core_empty_name force env y mo d hh mm lat lon hz] at hr
        obtain rfl := Option.some.inj hr
        constructor
        · simp only [unknownResult]
          linarith
        · simp only [unknownResult]
          linarith
      · by_cases hoff : resolveOffsetSec (env.timezone nm) y mo d hh mm = 0
        · rw [core_zero_offset force env y mo d hh mm lat lon nm hz hne hoff] at hr
          exact absurd hr (by simp)
        · rw [overrideFires_some force env y mo d hh mm lat lon nm hz hne] at hf
          rw [core_default force env y mo d hh mm lat lon nm hz hne hoff hf] at hr
          obtain rfl := Option.some.inj hr
          exact utShift_hours_range y mo d hh mm
            (resolveOffsetSec (env.timezone nm) y mo d hh mm)

/-- C2 counterexample: 01:00 local in the Kyiv region in 1985 with a
rule-table offset of +2 h.  The override path fires and returns
`ut_hours = −2`, which is not normalized into [0,24). -/
theorem C2_counterexample :
    get_local_and_ut true (constEnv "Europe/Kiev" 7200) "1985-01-01" "01:00" 50 30 =
      some { tz_name := some "Europe/Kiev (forced_UTC+3_pre1990)"
             utc_offset_hours := 3
             ut_dt := ⟨1985, 1, 1, 22, 0, 0⟩
             ut_hours := -2 } ∧
    ¬ (0 ≤ (-2 : ℚ) ∧ (-2 : ℚ) < 24) := by
  constructor
  · with_unfolding_all rfl
  · intro h
    exact absurd h.1 (by norm_num)

/-- C2 witness: the open-ocean scenario, where the relation holds with
offset 0 and `ut_hours = 9 ∈ [0,24)`. -/
theorem C2_witness :
    datetimeValid 2020 6 1 9 0 = true ∧
    ((∃ k : ℤ, ((9 : Int) : ℚ) + ((0 : Int) : ℚ) / 60 =
        ((9 : Int) : ℚ) + ((0 : Int) : ℚ) / 60 -
          trueOffsetHours true envUnknown 2020 6 1 9 0 0 (-160) + 24 * k) ∧
      (overrideFires true envUnknown 2020 6 1 9 0 0 (-160) = true →
        ((9 : Int) : ℚ) + ((0 : Int) : ℚ) / 60 = ((9 : Int) : ℚ) + ((0 : Int) : ℚ) / 60 - 3) ∧
      (overrideFires true envUnknown 2020 6 1 9 0 0 (-160) = false →
        0 ≤ ((9 : Int) : ℚ) + ((0 : Int) : ℚ) / 60 ∧
          ((9 : Int) : ℚ) + ((0 : Int) : ℚ) / 60 < 24)) :=
  ⟨by decide,
    C2_ut_hours_relation true envUnknown "2020-06-01" "09:00" 0 (-160) 2020 6 1 9 0
      { tz_name := none
        utc_offset_hours := 0
        ut_dt := ⟨2020, 6, 1, 9, 0, 0⟩
        ut_hours := ((9 : Int) : ℚ) + ((0 : Int) : ℚ) / 60 }
      (by decide) (by decide) (by decide) (by with_unfolding_all rfl)⟩

/-- C7 (amended): the round trip holds with the offset the conversion
actually applied — 3 on the override path and 0 on the unknown-zone path
(where it coincides with the returned field) and the *unrounded*
rule-table offset on the default path: adding it back to `ut_hours`
recovers `hh + mm/60` up to a whole number of 24-hour days.  (With the
returned rounded field the round trip can fail; see the counterexample.) -/
theorem C7_roundtrip (force : Bool) (env : Env) (ds ts : String) (lat lon : ℚ)
    (y mo d hh mm : Int) (r : UTResult)
    (hd : parseDate ds = some (y, mo, d)) (ht : parseTime ts = some (hh, mm))
    (hv : datetimeValid y mo d hh mm = true)
    (hr : get_local_and_ut force env ds ts lat lon = some r) :
    ∃ k : ℤ, r.ut_hours + trueOffsetHours force env y mo d hh mm lat lon =
      (hh : ℚ) + (mm : ℚ) / 60 + 24 * k := by
  rw [get_eq_core force env ds ts lat lon hd ht hv] at hr
  obtain ⟨k, hk⟩ := core_congruence force env y mo d hh mm lat lon r hr
  exact ⟨k, by linarith⟩

/-- C7 counterexample: a zone with an odd-second (local-mean-time style)
offset of 7304 s ≈ 2.0289 h.  The returned offset field is rounded to
2.03 while the decimal hours come from the unrounded shift, so adding the
returned offset back misses the local clock time 12:00 by 1/900 h, and no
24-hour wraparound accounts for the difference. -/
theorem C7_counterexample :
    get_local_and_ut true (constEnv "Pacific/Odd" 7304) "2000-01-01" "12:00" 10 20 =
      some { tz_name := some "Pacific/Odd"
             utc_offset_hours := 203/100
             ut_dt := ⟨2000, 1, 1, 9, 58, 16⟩
             ut_hours := 4487/450 } ∧
    ∀ k : ℤ, (4487/450 : ℚ) + 203/100 ≠ 12 + 24 * k := by
  constructor
  · with_unfolding_all rfl
  · intro k hk
    have h24 : 24 * (k : ℚ) = 1/900 := by linarith
    exact small_ne_24_mult (1/900) (by norm_num) (by norm_num) (by norm_num) k h24

/-- C7 witness: the spec's Kyiv scenario (1985-03-10 14:30, rule-table
offset +2 h): the override applies offset 3 and
`11.5 + 3 = 14.5 = 14 + 30/60` exactly (`k = 0`). -/
theorem C7_witness :
    datetimeValid 1985 3 10 14 30 = true ∧
    ∃ k : ℤ, (23/2 : ℚ) +
        trueOffsetHours true (constEnv "Europe/Kiev" 7200) 1985 3 10 14 30 (101/2) (61/2) =
      ((14 : Int) : ℚ) + ((30 : Int) : ℚ) / 60 + 24 * k :=
  ⟨by decide,
    C7_roundtrip true (constEnv "Europe/Kiev" 7200) "1985-03-10" "14:30" (101/2) (61/2)
      1985 3 10 14 30
      { tz_name := some "Europe/Kiev (forced_UTC+3_pre1990)"
        utc_offset_hours := 3
        ut_dt := ⟨1985, 3, 10, 11, 30, 0⟩
        ut_hours := 23/2 }
      (by decide) (by decide) (by decide) (by with_unfolding_all rfl)⟩

/-- C8: only on the historical-override path is the minute written into
the UT timestamp computed as `int((ut_hours % 1) * 60)` — truncation (the
floor of the nonnegative fractional part scaled to minutes), never
rounding — with the timestamp assembled on the unshifted calendar date;
on the default rule-table path the timestamp is the rollover-shifted one
and the decimal hours come from its hour/minute/second fields. -/
theorem C8_minute_truncation (force : Bool) (env : Env) (ds ts : String) (lat lon : ℚ)
    (y mo d hh mm : Int) (nm : String) (r : UTResult)
    (hd : parseDate ds = some (y, mo, d)) (ht : parseTime ts = some (hh, mm))
    (hv : datetimeValid y mo d hh mm = true)
    (hz : env.timezone_at lat lon = some nm) (hne : ¬ nm = "")
    (hr : get_local_and_ut force env ds ts lat lon = some r) :
    (overrideFires force env y mo d hh mm lat lon = true →
      r.ut_dt.minute = ⌊pyMod1 ((hh : ℚ) + (mm : ℚ) / 60 - 3) * 60⌋ ∧
      r.ut_dt = ⟨y, mo, d, pyTrunc ((hh : ℚ) + (mm : ℚ) / 60 - 3) % 24,
                 pyTrunc (pyMod1 ((hh : ℚ) + (mm : ℚ) / 60 - 3) * 60), 0⟩) ∧
    (overrideFires force env y mo d hh mm lat lon = false →
      r.ut_dt = utShift y mo d hh mm (resolveOffsetSec (env.timezone nm) y mo d hh mm) ∧
      r.ut_hours = (r.ut_dt.hour : ℚ) + (r.ut_dt.minute : ℚ) / 60 +
        (r.ut_dt.second : ℚ) / 3600) := by
  rw [get_eq_core force env ds ts lat lon hd ht hv] at hr
  by_cases hoff : resolveOffsetSec (env.timezone nm) y mo d hh mm = 0
  · rw [core_zero_offset force env y mo d hh mm lat lon nm hz hne hoff] at hr
    exact absurd hr (by simp)
  · constructor
    · intro hf
      rw [overrideFires_some force env y mo d hh mm lat lon nm hz hne] at hf
      rw [core_override force env y mo d hh mm lat lon nm hz hne hoff hf] at hr
      obtain rfl := Option.some.inj hr
      refine ⟨?_, rfl⟩
      exact pyTrunc_of_nonneg _
        (mul_nonneg (pyMod1_nonneg ((hh : ℚ) + (mm : ℚ) / 60 - 3)) (by norm_num))
    · intro hf
      rw [overrideFires_some force env y mo d hh mm lat lon nm hz hne] at hf
      rw [core_default force env y mo d hh mm lat lon nm hz hne hoff hf] at hr
      obtain rfl := Option.some.inj hr
      exact ⟨rfl, rfl⟩

/-- C8 witness: the Kyiv override at 14:30 writes minute
`⌊0.5 · 60⌋ = 30` into the UT timestamp, on the same calendar date. -/
theorem C8_witness :
    parseTime "14:30" = some (14, 30) ∧
    (overrideFires true (constEnv "Europe/Kiev" 7200) 1985 3 10 14 30 (101/2) (61/2) = true →
      (30 : Int) = ⌊pyMod1 (((14 : Int) : ℚ) + ((30 : Int) : ℚ) / 60 - 3) * 60⌋ ∧
      (⟨1985, 3, 10, 11, 30, 0⟩ : UTDt) =
        ⟨1985, 3, 10, pyTrunc (((14 : Int) : ℚ) + ((30 : Int) : ℚ) / 60 - 3) % 24,
         pyTrunc (pyMod1 (((14 : Int) : ℚ) + ((30 : Int) : ℚ) / 60 - 3) * 60), 0⟩) ∧
    (overrideFires true (constEnv "Europe/Kiev" 7200) 1985 3 10 14 30 (101/2) (61/2) = false →
      (⟨1985, 3, 10, 11, 30, 0⟩ : UTDt) =
        utShift 1985 3 10 14 30
          (resolveOffsetSec ((constEnv "Europe/Kiev" 7200).timezone "Europe/Kiev") 1985 3 10 14 30) ∧
      (23/2 : ℚ) = ((11 : Int) : ℚ) + ((30 : Int) : ℚ) / 60 + ((0 : Int) : ℚ) / 3600) :=
  ⟨by decide,
    C8_minute_truncation true (constEnv "Europe/Kiev" 7200) "1985-03-10" "14:30"
      (101/2) (61/2) 1985 3 10 14 30 "Europe/Kiev"
      { tz_name := some "Europe/Kiev (forced_UTC+3_pre1990)"
        utc_offset_hours := 3
        ut_dt := ⟨1985, 3, 10, 11, 30, 0⟩
        ut_hours := 23/2 }
      (by decide) (by decide) (by decide) rfl (by decide) (by with_unfolding_all rfl)⟩

/-- C10: in the default rule-table path the returned offset field is the
rule-table offset rounded half-to-even at 2 decimals, while the decimal
hours are derived from the *unrounded* offset via the shifted second-of-
day; the override and unknown-zone paths return their offsets (3.0, 0.0)
unrounded; and (last conjunct) for an odd-second offset the two returned
fields indeed fail `ut_hours = hh + mm/60 − utc_offset_hours` even modulo
24 hours. -/
theorem C10_offset_field_rounded (force : Bool) (env : Env) (ds ts : String) (lat lon : ℚ)
    (y mo d hh mm : Int) (nm : String) (r : UTResult)
    (hd : parseDate ds = some (y, mo, d)) (ht : parseTime ts = some (hh, mm))
    (hv : datetimeValid y mo d hh mm = true)
    (hz : env.timezone_at lat lon = some nm) (hne : ¬ nm = "")
    (hr : get_local_and_ut force env ds ts lat lon = some r) :
    (overrideFires force env y mo d hh mm lat lon = false →
      r.utc_offset_hours =
        round2 ((resolveOffsetSec (env.timezone nm) y mo d hh mm : ℚ) / 3600) ∧
      r.ut_hours =
        (((hh * 3600 + mm * 60 - resolveOffsetSec (env.timezone nm) y mo d hh mm) % 86400 : ℤ) : ℚ)
          / 3600) ∧
    (overrideFires force env y mo d hh mm lat lon = true → r.utc_offset_hours = 3) ∧
    (∀ lat2 lon2 : ℚ, ∀ r2 : UTResult, env.timezone_at lat2 lon2 = none →
      get_local_and_ut force env ds ts lat2 lon2 = some r2 → r2.utc_offset_hours = 0) ∧
    (∃ r3, get_local_and_ut true (constEnv "Pacific/Odd2" 9044) "2000-03-05" "06:30" 10 20 =
        some r3 ∧
      ∀ k : ℤ, r3.ut_hours ≠ (6 : ℚ) + (30 : ℚ) / 60 - r3.utc_offset_hours + 24 * k) := by
  rw [get_eq_core force env ds ts lat lon hd ht hv] at hr
  refine ⟨?_, ?_, ?_, ?_⟩
  · intro hf
    by_cases hoff : resolveOffsetSec (env.timezone nm) y mo d hh mm = 0
    · rw [core_zero_offset force env y mo d hh mm lat lon nm hz hne hoff] at hr
      exact absurd hr (by simp)
    · rw [overrideFires_some force env y mo d hh mm lat lon nm hz hne] at hf
      rw [core_default force env y mo d hh mm lat lon nm hz hne hoff hf] at hr
      obtain rfl := Option.some.inj hr
      exact ⟨rfl, utShift_hours_eq y mo d hh mm (resolveOffsetSec (env.timezone nm) y mo d hh mm)⟩
  · intro hf
    by_cases hoff : resolveOffsetSec (env.timezone nm) y mo d hh mm = 0
    · rw [core_zero_offset force env y mo d hh mm lat lon nm hz hne hoff] at hr
      exact absurd hr (by simp)
    · rw [overrideFires_some force env y mo d hh mm lat lon nm hz hne] at hf
      rw [core_override force env y mo d hh mm lat lon nm hz hne hoff hf] at hr
      obtain rfl := Option.some.inj hr
      rfl
  · intro lat2 lon2 r2 hz2 hr2
    rw [get_eq_core force env ds ts lat2 lon2 hd ht hv] at hr2
    rw [core_unknown force env y mo d hh mm lat2 lon2 hz2] at hr2
    obtain rfl := Option.some.inj hr2
    rfl
  · refine ⟨{ tz_name := some "Pacific/Odd2"
              utc_offset_hours := 251/100
              ut_dt := ⟨2000, 3, 5, 3, 59, 16⟩
              ut_hours := 3589/900 }, by with_unfolding_all rfl, ?_⟩
    intro k hk
    simp only at hk
    have h24 : 24 * (k : ℚ) = -1/450 := by
      have : (6 : ℚ) + (30 : ℚ) / 60 - 251/100 = 3591/900 := by norm_num
      rw [this] at hk
      linarith
    exact small_ne_24_mult (-1/450) (by norm_num) (by norm_num) (by norm_num) k h24

/-- C10 witness: a default-path conversion (New-York-like zone, −5 h =
−18000 s, no override): the returned field is `round2(−5) = −5` and the
decimal hours come from the shifted second-of-day. -/
theorem C10_witness :
    datetimeValid 2023 1 1 12 0 = true ∧
    ((overrideFires true (constEnv "America/New_York" (-18000)) 2023 1 1 12 0 (4071/100) (-74)
        = false →
      (-5 : ℚ) = round2 (((-18000 : Int) : ℚ) / 3600) ∧
      (17 : ℚ) =
        (((12 * 3600 + 0 * 60 - (-18000)) % 86400 : ℤ) : ℚ) / 3600) ∧
    (overrideFires true (constEnv "America/New_York" (-18000)) 2023 1 1 12 0 (4071/100) (-74)
        = true → (-5 : ℚ) = 3) ∧
    (∀ lat2 lon2 : ℚ, ∀ r2 : UTResult,
      (constEnv "America/New_York" (-18000)).timezone_at lat2 lon2 = none →
      get_local_and_ut true (constEnv "America/New_York" (-18000)) "2023-01-01" "12:00" lat2 lon2
        = some r2 → r2.utc_offset_hours = 0) ∧
    (∃ r3, get_local_and_ut true (constEnv "Pacific/Odd2" 9044) "2000-03-05" "06:30" 10 20 =
        some r3 ∧
      ∀ k : ℤ, r3.ut_hours ≠ (6 : ℚ) + (30 : ℚ) / 60 - r3.utc_offset_hours + 24 * k)) :=
  ⟨by decide,
    C10_offset_field_rounded true (constEnv "America/New_York" (-18000)) "2023-01-01" "12:00"
      (4071/100) (-74) 2023 1 1 12 0 "America/New_York"
      { tz_name := some "America/New_York"
        utc_offset_hours := -5
        ut_dt := ⟨2023, 1, 1, 17, 0, 0⟩
        ut_hours := 17 }
      (by decide) (by decide) (by decide) rfl (by decide) (by with_unfolding_all rfl)⟩

/-- C3 counterexample: the spec's explicit-offset scenario ("2023-01-01",
"12:00", explicit offset "-05:00").  Were the claim true the response
would carry `utc_offset_hours = −5` and `ut_hours = 17` independently of
the resolver.  Instead, under a resolver that knows no zone the response
has offset 0 and `ut_hours = 12`, and changing nothing but the resolver's
answer changes the response — the resolver is consulted and the offset
field is ignored. -/
theorem C3_counterexample :
    natal true envUnknown reqOffset =
      Response.ok { tz_name := none
                    utc_offset_hours := 0
                    ut_dt := ⟨2023, 1, 1, 12, 0, 0⟩
                    ut_hours := 12 } ∧
    natal true envUnknown reqOffset ≠
      natal true (constEnv "America/New_York" (-18000)) reqOffset := by
  have h1 : natal true envUnknown reqOffset =
      Response.ok { tz_name := none
                    utc_offset_hours := 0
                    ut_dt := ⟨2023, 1, 1, 12, 0, 0⟩
                    ut_hours := 12 } := by
    with_unfolding_all rfl
  have h2 : natal true (constEnv "America/New_York" (-18000)) reqOffset =
      Response.ok { tz_name := some "America/New_York"
                    utc_offset_hours := -5
                    ut_dt := ⟨2023, 1, 1, 17, 0, 0⟩
                    ut_hours := 17 } := by
    with_unfolding_all rfl
  refine ⟨h1, ?_⟩
  rw [h1, h2]
  intro h
  have h3 := congrArg UTResult.tz_name (Response.ok.inj h)
  simp at h3

/-- C3 (amended): no explicit-offset path exists in the code —
`get_local_and_ut` takes only the date, time and coordinates, and the
handler reads only the "date", "time", "lat" and "lon" fields, so an
explicit-offset field of any value never changes the response, and
coordinate-based timezone resolution is never skipped. -/
theorem C3_offset_ignored (force : Bool) (env : Env) (req : String → Option PyVal)
    (v : Option PyVal) :
    natal force env (setField req "offset" v) = natal force env req := by
  unfold natal
  have hd : setField req "offset" v "date" = req "date" := if_neg (by decide)
  have hti : setField req "offset" v "time" = req "time" := if_neg (by decide)
  have hla : setField req "offset" v "lat" = req "lat" := if_neg (by decide)
  have hlo : setField req "offset" v "lon" = req "lon" := if_neg (by decide)
  rw [hd, hti, hla, hlo]

/-- Helper for C5: once the four truthiness checks pass, the handler
answers through the `try` block, so it never answers 400, and a date or
time string that fails to parse forces the 500 catch-all. -/
theorem natal_past_guard (force : Bool) (env : Env) (req : String → Option PyVal)
    (hc : (truthy (req "date") && truthy (req "time") && truthy (req "lat") &&
      truthy (req "lon")) = true) :
    natal force env req ≠ Response.badRequest ∧
    (∀ ds ts, req "date" = some (PyVal.str ds) → req "time" = some (PyVal.str ts) →
      (parseDate ds = none ∨ parseTime ts = none) →
      natal force env req = Response.serverError) := by
  unfold natal
  rw [hc]
  simp only [Bool.not_true, Bool.false_eq_true, if_false]
  constructor
  · intro hb
    repeat' first
      | exact Response.noConfusion hb
      | split at hb
  · intro ds ts hds hts hparse
    rw [hds, hts]
    repeat' first
      | rfl
      | split
    all_goals
      first
        | (exfalso
           rename_i ds2 ts2 heq2 heq1 x r heq
           have hds2 : ds2 = ds := (PyVal.str.inj (Option.some.inj heq2)).symm
           have hts2 : ts2 = ts := (PyVal.str.inj (Option.some.inj heq1)).symm
           rcases hparse with hpd | hpt
           · rw [hds2, get_date_parse_fail force env ds ts2 _ _ hpd] at heq
             exact Option.noConfusion heq
           · rw [hts2, get_time_parse_fail force env ds2 ts _ _ hpt] at heq
             exact Option.noConfusion heq)
        | (exfalso
           rename_i hno x r heq
           exact hno ds ts rfl rfl)

/-- C5 (corrected claim): the handler answers the 400 missing-fields error
exactly when one of the four required fields is missing or falsy; when all
four are present (truthy) but the date or the time string is malformed,
the resulting parse exception is caught by the catch-all and surfaced as
the 500 server-fault answer — not as a client-input 400. -/
theorem C5_error_channels (force : Bool) (env : Env) (req : String → Option PyVal) :
    (natal force env req = Response.badRequest ↔
      (truthy (req "date") && truthy (req "time") && truthy (req "lat") &&
        truthy (req "lon")) = false) ∧
    (∀ ds ts, req "date" = some (PyVal.str ds) → req "time" = some (PyVal.str ts) →
      (parseDate ds = none ∨ parseTime ts = none) →
      (truthy (req "date") && truthy (req "time") && truthy (req "lat") &&
        truthy (req "lon")) = true →
      natal force env req = Response.serverError) := by
  constructor
  · constructor
    · intro hb
      cases hc : (truthy (req "date") && truthy (req "time") && truthy (req "lat") &&
          truthy (req "lon")) with
      | false => rfl
      | true => exact absurd hb (natal_past_guard force env req hc).1
    · intro hf
      unfold natal
      rw [hf]
      simp
  · intro ds ts hds hts hparse hc
    exact (natal_past_guard force env req hc).2 ds ts hds hts hparse

/-- C5 counterexample: a request whose fields are all present but whose
date string is malformed is answered with the 500 catch-all — the
server-fault channel — not with a 400 client-input rejection. -/
theorem C5_counterexample :
    natal true envUnknown reqBadDate = Response.serverError ∧
    Response.serverError ≠ Response.badRequest := by
  constructor
  · with_unfolding_all rfl
  · intro h
    cases h

/-- C5 witness: the corrected statement applied to a request whose date is
well-formed but whose time string is malformed. -/
theorem C5_witness :
    natal true (constEnv "Europe/Kiev" 7200) reqBadTime = Response.serverError :=
  (C5_error_channels true (constEnv "Europe/Kiev" 7200) reqBadTime).2 "2023-01-01"
    "half past nine" (by decide) (by decide) (Or.inr (by decide)) (by decide)

end ChartAPI
